import Mathlib

/-!
# Verification of the whisper-test web backend (src/app.py)

A shallow embedding of the Flask application in `src/app.py`.  The app
exposes `/synthesize` (text-to-speech through a cloud provider) and
`/transcribe` (speech-to-text through a local Whisper model), plus a
`/transcribe-audio` HTML page.  Handlers are embedded as pure functions:
the ambient nondeterminism (generated UUID, provider outcome, model
inference outcome, filesystem) is passed in explicitly as an environment,
Python exceptions become `Except`, and the handler output records the
HTTP response together with the list of files written and the trace of
adapter events.
-/

namespace WhisperTest

/-- `os.path.join('static', 'audio')` etc. (POSIX).  The second component
never begins with a separator in this program except where noted, but we
keep the real semantics: an absolute second argument replaces the first. -/
def pyJoin (a b : String) : String :=
  if b.toList.head? = some '/' then b
  else if a = "" then b
  else a ++ "/" ++ b

/-- `AUDIO_FOLDER = os.path.join('static', 'audio')` (src/app.py line 19). -/
def AUDIO_FOLDER : String := pyJoin "static" "audio"

/-- `UPLOAD_FOLDER = os.path.join('static', 'uploads')` (src/app.py line 20). -/
def UPLOAD_FOLDER : String := pyJoin "static" "uploads"

/-- The Whisper model object returned by `whisper.load_model(name)`;
only its configuration name is observable to this program. -/
structure WhisperModel where
  name : String
deriving DecidableEq, Repr

/-- `whisper.load_model` (the external library call on src/app.py line 39). -/
def load_model (name : String) : WhisperModel := ⟨name⟩

/-- `get_whisper_model` (src/app.py lines 36-40) with the global
`whisper_model` made explicit: input state is the global before the call,
output is the returned model together with the global after the call. -/
def get_whisper_model (whisper_model : Option WhisperModel) :
    WhisperModel × Option WhisperModel :=
  match whisper_model with
  | none =>
      let m := load_model "tiny.en"
      (m, some m)
  | some m => (m, some m)

/-! ## The `/synthesize` handler (src/app.py lines 46-96) -/

/-- The form fields read by `synthesize_text`: `request.form.get(k, d)`
yields the submitted string when the field is present, else the default;
`none` models an absent field. -/
structure SynthForm where
  text : Option String
  language : Option String
  voice : Option String
  rate : Option String
  pitch : Option String

/-- The `texttospeech.VoiceSelectionParams` built on lines 62-66. -/
structure VoiceSelectionParams where
  language_code : String
  name : String
deriving DecidableEq, Repr

/-- The `texttospeech.AudioConfig` built on lines 69-73; MP3 encoding is
fixed, `speaking_rate` and `pitch` are the parsed floats (embedded as
rationals). -/
structure AudioConfig where
  speaking_rate : Rat
  pitch : Rat
deriving DecidableEq, Repr

/-- The full request handed to `client.synthesize_speech` on lines 76-78:
the synthesis input text, the voice selection and the audio config. -/
structure SynthRequest where
  input : String
  voice : VoiceSelectionParams
  audio_config : AudioConfig
deriving DecidableEq, Repr

/-- Python `float(x)` as used on lines 71-72: when the form field is
absent, `request.form.get` returns the default float itself and the
conversion is the identity; when present, the string is parsed by `pf`
(the ambient `float` string parser), raising `ValueError` — here an
`Except.error` — when the string is not a float literal. -/
def pyFloat (pf : String → Option Rat) (field : Option String) (dflt : Rat) :
    Except String Rat :=
  match field with
  | none => Except.ok dflt
  | some s =>
      match pf s with
      | some v => Except.ok v
      | none => Except.error ("could not convert string to float: " ++ s)

/-- Lines 69-73: build the `AudioConfig`; `float(rate)` is evaluated
before `float(pitch)`, and a `ValueError` from either aborts the try
block. -/
def mkAudioConfig (pf : String → Option Rat) (form : SynthForm) :
    Except String AudioConfig := do
  let r ← pyFloat pf form.rate 1
  let p ← pyFloat pf form.pitch 0
  pure ⟨r, p⟩

/-- A JSON response: ordered fields (all values in this app are strings)
plus the HTTP status (Flask defaults a bare dict to 200). -/
structure JsonResp where
  fields : List (String × String)
  status : Nat
deriving DecidableEq, Repr

/-- Ambient environment of one `/synthesize` call: whether the service
account file exists (line 56 raises `FileNotFoundError` otherwise), the
provider's answer for a given request (line 76, raising on failure), and
the `uuid.uuid4()` drawn on line 81. -/
structure SynthEnv where
  clientOk : Bool
  synth : SynthRequest → Except String (List Nat)
  fresh : String

/-- Output of the handler: the HTTP response, the files written (path and
bytes, in order), and the provider request actually issued, if any. -/
structure SynthOutput where
  resp : JsonResp
  written : List (String × List Nat)
  providerReq : Option SynthRequest
deriving Repr

/-- `synthesize_text` (src/app.py lines 46-96), with the exception flow
of the try/except made explicit. -/
def synthesize_text (pf : String → Option Rat) (env : SynthEnv)
    (form : SynthForm) : SynthOutput :=
  let text := form.text.getD ""
  if text = "" then
    ⟨⟨[("error", "No text provided")], 400⟩, [], none⟩
  else if env.clientOk = false then
    -- `from_service_account_json` raises FileNotFoundError (lines 91-93)
    ⟨⟨[("error", "Google Cloud service account file not found. Please check the file path.")], 500⟩,
      [], none⟩
  else
    let voice : VoiceSelectionParams :=
      ⟨form.language.getD "en-US", form.voice.getD "en-US-Standard-B"⟩
    match mkAudioConfig pf form with
    | Except.error e =>
        -- ValueError lands in the generic handler (lines 94-96)
        ⟨⟨[("error", "Text-to-speech error: " ++ e)], 500⟩, [], none⟩
    | Except.ok cfg =>
        let req : SynthRequest := ⟨text, voice, cfg⟩
        match env.synth req with
        | Except.error e =>
            ⟨⟨[("error", "Text-to-speech error: " ++ e)], 500⟩, [], some req⟩
        | Except.ok audio_content =>
            let filename := env.fresh ++ ".mp3"
            let filepath := pyJoin AUDIO_FOLDER filename
            ⟨⟨[("audio_path", pyJoin (pyJoin "static" "audio") filename)], 200⟩,
              [(filepath, audio_content)], some req⟩

/-! ## The `/transcribe` handler (src/app.py lines 98-131) -/

/-- The multipart file object: `file.filename` and the bytes that
`file.save` writes. -/
structure UploadFile where
  filename : String
  content : List Nat

/-- The request as seen by `transcribe_speech`: `request.files` either
holds the `audio` part or not. -/
structure TransForm where
  audio : Option UploadFile

/-- Ambient environment of one `/transcribe` call: the `uuid.uuid4()`
drawn on line 113, the global `whisper_model` before the call, and
`model.transcribe(filepath)["text"]` as a function of the file path,
raising — `Except.error` — on inference failure. -/
structure TransEnv where
  fresh : String
  modelState : Option WhisperModel
  transcribe : WhisperModel → String → Except String String

/-- Observable adapter events of one `/transcribe` call, in program
order: the `file.save(filepath)` write and the `model.transcribe`
invocation. -/
inductive TransEvent where
  | save (filepath : String)
  | transcribeCall (filepath : String)
deriving DecidableEq, Repr

/-- Output of the handler: response, files written (never removed — the
handler has no delete), resulting global model state, and event trace. -/
structure TransOutput where
  resp : JsonResp
  written : List (String × List Nat)
  modelState : Option WhisperModel
  events : List TransEvent
deriving Repr

/-- The filename built on line 113 (`f"{uuid.uuid4()}_{file.filename}"`)
and joined to the upload folder on line 114. -/
def upload_filepath (fresh origName : String) : String :=
  pyJoin UPLOAD_FOLDER (fresh ++ "_" ++ origName)

/-- `transcribe_speech` (src/app.py lines 98-131).  Note the save on
line 115 precedes the try block: the file is written before the model is
obtained or invoked, and no branch removes it. -/
def transcribe_speech (env : TransEnv) (form : TransForm) : TransOutput :=
  match form.audio with
  | none => ⟨⟨[("error", "No audio file provided")], 400⟩, [], env.modelState, []⟩
  | some file =>
    if file.filename = "" then
      ⟨⟨[("error", "No selected file")], 400⟩, [], env.modelState, []⟩
    else
      let filename := env.fresh ++ "_" ++ file.filename
      let filepath := pyJoin UPLOAD_FOLDER filename
      -- line 115: file.save(filepath), outside the try block
      let saved := [(filepath, file.content)]
      let (model, st) := get_whisper_model env.modelState
      match env.transcribe model filepath with
      | Except.ok text =>
          ⟨⟨[("text", text),
             ("audio_path", pyJoin (pyJoin "static" "uploads") filename)], 200⟩,
            saved, st, [TransEvent.save filepath, TransEvent.transcribeCall filepath]⟩
      | Except.error e =>
          ⟨⟨[("error", e)], 500⟩,
            saved, st, [TransEvent.save filepath, TransEvent.transcribeCall filepath]⟩

/-! ## The `/transcribe-audio` handler (src/app.py lines 134-181) -/

/-- The template context dict built by `transcribe_audio`
(src/app.py lines 141-147). -/
structure TAContext where
  has_audio : Bool
  error : Option String
  text : Option String
  filename : Option String
  audio_path : Option String
deriving DecidableEq, Repr

/-- A response of the whole application: either a JSON body with a
status, or a rendered HTML template (Flask status 200). -/
inductive AppResp where
  | json (fields : List (String × String)) (status : Nat)
  | html (template : String) (ctx : TAContext)
deriving DecidableEq, Repr

/-- The HTTP status of a response; a rendered template is served 200. -/
def AppResp.status : AppResp → Nat
  | AppResp.json _ s => s
  | AppResp.html _ _ => 200

/-- Whether a response reports an error to the caller: a JSON body with
an `error` field, or a rendered page whose context carries an error. -/
def AppResp.reportsError : AppResp → Bool
  | AppResp.json fields _ => fields.any (fun kv => kv.1 = "error")
  | AppResp.html _ ctx => ctx.error.isSome

/-- Ambient environment of one `/transcribe-audio` call: whether
`recording.m4a` exists next to app.py (line 158), the global model state,
and the inference outcome. -/
structure TAEnv where
  fileExists : Bool
  modelState : Option WhisperModel
  transcribe : WhisperModel → String → Except String String

/-- `transcribe_audio` (src/app.py lines 134-181): every branch returns
`render_template('audio_transcribe.html', **context)` with no explicit
status, i.e. HTTP 200. -/
def transcribe_audio (env : TAEnv) : AppResp :=
  let ctx0 : TAContext := ⟨false, none, none, none, none⟩
  if env.fileExists = false then
    AppResp.html "audio_transcribe.html"
      { ctx0 with error := some "Audio file 'recording.m4a' not found. Please place it next to app.py." }
  else
    let (model, _) := get_whisper_model env.modelState
    match env.transcribe model "recording.m4a" with
    | Except.ok text =>
        AppResp.html "audio_transcribe.html"
          { ctx0 with has_audio := true, text := some text,
                      filename := some "recording.m4a",
                      audio_path := some "/app-files/recording.m4a" }
    | Except.error e =>
        AppResp.html "audio_transcribe.html" { ctx0 with error := some e }

/-! ## Path normalization (for the filename-sanitization claim)

`transcribe_speech` joins the client-supplied `file.filename` to the
upload folder verbatim.  To state where the saved path actually points we
model POSIX lexical path normalization (`os.path.normpath`) on relative
paths. -/

/-- Split a character list into components at `/`. -/
def splitChars : List Char → List Char → List (List Char)
  | [], acc => [acc.reverse]
  | c :: cs, acc =>
      if c = '/' then acc.reverse :: splitChars cs []
      else splitChars cs (c :: acc)

/-- Split a path string into components at `/`. -/
def splitPath (s : String) : List String :=
  (splitChars s.toList []).map String.mk

/-- Resolve one component against the stack of components so far:
empty and `.` components vanish; `..` pops the last real component
(or accumulates at the front of a relative path). -/
def normStep (acc : List String) (c : String) : List String :=
  if c = "" ∨ c = "." then acc
  else if c = ".." then
    match acc.getLast? with
    | some l => if l = ".." then acc ++ [".."] else acc.dropLast
    | none => [".."]
  else acc ++ [c]

/-- Lexically normalized components of a relative path. -/
def normComponents (s : String) : List String :=
  (splitPath s).foldl normStep []

/-- The normalized path lies strictly inside `static/uploads/`. -/
def insideUploads (s : String) : Bool :=
  match normComponents s with
  | "static" :: "uploads" :: rest => rest ≠ []
  | _ => false

/-! ## Interleaved executions of `get_whisper_model`

The body of `get_whisper_model` (lines 37-40) is not atomic: the null
check on line 38 and the assignment on line 39 are separate bytecode
steps, and the function takes no lock.  We model two threads that each
execute the function once against the shared global `whisper_model`,
interleaved arbitrarily, and count calls to `whisper.load_model`. -/

/-- Program counter of one thread running `get_whisper_model`:
before the null check, between the check and the assignment, or returned
with a result. -/
inductive TPC where
  | start
  | loading
  | done (result : WhisperModel)
deriving DecidableEq, Repr

/-- Whether a thread has returned. -/
def TPC.isDone : TPC → Bool
  | TPC.done _ => true
  | _ => false

/-- Shared state of a two-thread execution: the global `whisper_model`,
each thread's program counter, and the number of `load_model` calls
performed so far. -/
structure CState where
  model : Option WhisperModel
  t1 : TPC
  t2 : TPC
  loads : Nat
deriving DecidableEq, Repr

/-- One interleaving step: a thread at the check reads the global and
either proceeds to load (read `none`) or returns the cached handle; a
thread past the check loads the model, stores it and returns it.  This is
exactly lines 38-40 with no mutual exclusion between the check and the
store. -/
inductive CStep : CState → CState → Prop where
  | check1_none (s : CState) : s.t1 = TPC.start → s.model = none →
      CStep s { s with t1 := TPC.loading }
  | check1_some (s : CState) (m : WhisperModel) : s.t1 = TPC.start →
      s.model = some m → CStep s { s with t1 := TPC.done m }
  | load1 (s : CState) : s.t1 = TPC.loading →
      CStep s { s with t1 := TPC.done (load_model "tiny.en"),
                       model := some (load_model "tiny.en"),
                       loads := s.loads + 1 }
  | check2_none (s : CState) : s.t2 = TPC.start → s.model = none →
      CStep s { s with t2 := TPC.loading }
  | check2_some (s : CState) (m : WhisperModel) : s.t2 = TPC.start →
      s.model = some m → CStep s { s with t2 := TPC.done m }
  | load2 (s : CState) : s.t2 = TPC.loading →
      CStep s { s with t2 := TPC.done (load_model "tiny.en"),
                       model := some (load_model "tiny.en"),
                       loads := s.loads + 1 }

/-- Initial state: model not yet created, both threads about to call the
accessor, no load performed. -/
def initCState : CState := ⟨none, TPC.start, TPC.start, 0⟩

/-- Reachability along interleaved steps. -/
def CReach (s : CState) : Prop :=
  Relation.ReflTransGen CStep initCState s

/-! ## Auxiliary response predicates -/

/-- `p` is a leading substring of `s`. -/
def strStartsWith (p s : String) : Bool :=
  p.toList.isPrefixOf s.toList

/-- The JSON body is a single `error` field whose message starts with
`p`. -/
def errorFieldStartsWith (r : JsonResp) (p : String) : Bool :=
  match r.fields with
  | [(k, v)] => k == "error" && strStartsWith p v
  | _ => false

/-- The `/transcribe` request fails validation: the `audio` part is
absent, or its filename is empty (src/app.py lines 102-110). -/
def transcribeInvalid (form : TransForm) : Bool :=
  match form.audio with
  | none => true
  | some f => f.filename == ""

/-- The 400 message chosen on lines 103 and 110: which one depends on
whether the part is absent or merely unnamed. -/
def rejectMsg (form : TransForm) : String :=
  match form.audio with
  | none => "No audio file provided"
  | some _ => "No selected file"

/-! ## Auxiliary definitions for the interleaving analysis -/

/-- How many `load_model` calls a thread may still perform from its
current program point. -/
def TPC.cost : TPC → Nat
  | TPC.done _ => 0
  | _ => 1

/-- A returned thread holds exactly the `tiny.en` model. -/
def doneResultOk : TPC → Bool
  | TPC.done m => decide (m = load_model "tiny.en")
  | _ => true

/-- The final state of the racy interleaving in which both threads pass
the null check before either stores: both load, `loads = 2`. -/
def doubleLoadState : CState :=
  ⟨some (load_model "tiny.en"), TPC.done (load_model "tiny.en"),
    TPC.done (load_model "tiny.en"), 2⟩

/-- Inductive invariant of the two-thread interleaving: the pending-load
budget bounds `loads`, the global only ever holds the `tiny.en` model,
and a returned thread saw the global already set to it. -/
def CInv (s : CState) : Prop :=
  s.loads + s.t1.cost + s.t2.cost ≤ 2 ∧
  (s.model = none ∨ s.model = some (load_model "tiny.en")) ∧
  (∀ m, s.t1 = TPC.done m → m = load_model "tiny.en" ∧
      s.model = some (load_model "tiny.en")) ∧
  (∀ m, s.t2 = TPC.done m → m = load_model "tiny.en" ∧
      s.model = some (load_model "tiny.en"))

/-! ## Theorems -/

/-- C4: sequentially, the first call to `get_whisper_model` loads the
fixed small English-only configuration `tiny.en` and caches it, and
every call made when the handle already exists returns that same cached
instance and leaves the global untouched — the handle is never recreated
or invalidated. -/
theorem get_whisper_model_lazy_singleton :
    get_whisper_model none = (load_model "tiny.en", some (load_model "tiny.en")) ∧
    ∀ m : WhisperModel, get_whisper_model (some m) = (m, some m) :=
  ⟨rfl, fun _ => rfl⟩

/-- C5: when the `text` form field is absent or empty, `/synthesize`
responds 400 with body `{"error": "No text provided"}`, writes no file
and issues no provider request. -/
theorem synthesize_empty_text_rejected
    (pf : String → Option Rat) (env : SynthEnv) (form : SynthForm)
    (h : form.text.getD "" = "") :
    synthesize_text pf env form =
      ⟨⟨[("error", "No text provided")], 400⟩, [], none⟩ := by
  simp [synthesize_text, h]

/-- Witness for C5 at the request with no `text` field at all. -/
theorem synthesize_empty_text_rejected_witness :
    synthesize_text (fun _ => none)
        ⟨true, fun _ => Except.ok [], "u1"⟩ ⟨none, none, none, none, none⟩ =
      ⟨⟨[("error", "No text provided")], 400⟩, [], none⟩ :=
  synthesize_empty_text_rejected _ _ _ rfl

/-- C6: when the `audio` part is absent or carries an empty filename,
`/transcribe` responds 400 with the corresponding message
(`No audio file provided` resp. `No selected file`), writes no file and
leaves the model state untouched. -/
theorem transcribe_invalid_upload_rejected
    (env : TransEnv) (form : TransForm)
    (h : transcribeInvalid form = true) :
    transcribe_speech env form =
      ⟨⟨[("error", rejectMsg form)], 400⟩, [], env.modelState, []⟩ := by
  cases hf : form.audio with
  | none => simp [transcribe_speech, rejectMsg, hf]
  | some f =>
      have hname : f.filename = "" := by
        have := h
        rw [transcribeInvalid, hf] at this
        exact eq_of_beq this
      simp [transcribe_speech, rejectMsg, hf, hname]

/-- Witness for C6 at the request with no `audio` part. -/
theorem transcribe_invalid_upload_rejected_witness :
    transcribe_speech ⟨"u2", none, fun _ _ => Except.ok "ok"⟩ ⟨none⟩ =
      ⟨⟨[("error", "No audio file provided")], 400⟩, [], none, []⟩ :=
  transcribe_invalid_upload_rejected _ _ rfl

/-- C10: the uploaded original filename is joined to the upload folder
verbatim; for the filename `a/../../../pwned` the path the handler
writes to normalizes to a location outside `static/uploads/`, while an
ordinary filename stays inside it. -/
theorem transcribe_upload_path_escapes :
    (transcribe_speech ⟨"b4f2", some (load_model "tiny.en"), fun _ _ => Except.ok "t"⟩
        ⟨some ⟨"a/../../../pwned", [0]⟩⟩).written.map Prod.fst =
      [upload_filepath "b4f2" "a/../../../pwned"] ∧
    insideUploads (upload_filepath "b4f2" "a/../../../pwned") = false ∧
    insideUploads (upload_filepath "b4f2" "sample.wav") = true := by
  refine ⟨rfl, ?_, ?_⟩ <;> decide

/-- C1: a successful `/synthesize` call (non-empty `text`, response 200)
returns a JSON body whose single `audio_path` field is the path
`<AUDIO_FOLDER>/<uuid>.mp3`, and writes exactly one file, at that very
path. -/
theorem synthesize_success_writes_one_file
    (pf : String → Option Rat) (env : SynthEnv) (form : SynthForm)
    (htext : form.text.getD "" ≠ "")
    (hsucc : (synthesize_text pf env form).resp.status = 200) :
    (synthesize_text pf env form).resp.fields =
      [("audio_path", pyJoin AUDIO_FOLDER (env.fresh ++ ".mp3"))] ∧
    (synthesize_text pf env form).written.map Prod.fst =
      [pyJoin AUDIO_FOLDER (env.fresh ++ ".mp3")] := by
  by_cases hc : env.clientOk = false
  · simp [synthesize_text, htext, hc] at hsucc
  · rcases hcfg : mkAudioConfig pf form with e | cfg
    · simp [synthesize_text, htext, hc, hcfg] at hsucc
    · rcases hsynth : env.synth ⟨form.text.getD "",
          ⟨form.language.getD "en-US", form.voice.getD "en-US-Standard-B"⟩, cfg⟩
        with e | audio
      · simp [synthesize_text, htext, hc, hcfg, hsynth] at hsucc
      · simp [synthesize_text, htext, hc, hcfg, hsynth, AUDIO_FOLDER]

/-- Witness for C1 at a concrete request and succeeding provider. -/
theorem synthesize_success_writes_one_file_witness :
    (synthesize_text (fun _ => none)
        ⟨true, fun _ => Except.ok [9, 9], "u77"⟩
        ⟨some "Hello world", none, none, none, none⟩).resp.fields =
      [("audio_path", pyJoin AUDIO_FOLDER ("u77" ++ ".mp3"))] ∧
    (synthesize_text (fun _ => none)
        ⟨true, fun _ => Except.ok [9, 9], "u77"⟩
        ⟨some "Hello world", none, none, none, none⟩).written.map Prod.fst =
      [pyJoin AUDIO_FOLDER ("u77" ++ ".mp3")] :=
  synthesize_success_writes_one_file _ _ _ (by decide) (by decide)

/-- C2: a validated `/transcribe` request writes the uploaded bytes to
`<UPLOAD_FOLDER>/<uuid>_<original-filename>` strictly before the
recognition call (the save event precedes the transcribe event), and the
written file is the same whether the outcome is 200 (body `text`,
`audio_path`) or 500 (body `error`); no branch removes it. -/
theorem transcribe_saves_before_recognition
    (env : TransEnv) (form : TransForm) (file : UploadFile)
    (hf : form.audio = some file) (hname : file.filename ≠ "") :
    (transcribe_speech env form).written =
      [(pyJoin UPLOAD_FOLDER (env.fresh ++ "_" ++ file.filename), file.content)] ∧
    (transcribe_speech env form).events =
      [TransEvent.save (pyJoin UPLOAD_FOLDER (env.fresh ++ "_" ++ file.filename)),
       TransEvent.transcribeCall (pyJoin UPLOAD_FOLDER (env.fresh ++ "_" ++ file.filename))] ∧
    ((transcribe_speech env form).resp.status = 200 ∨
      (transcribe_speech env form).resp.status = 500) ∧
    ((transcribe_speech env form).resp.status = 200 →
      (transcribe_speech env form).resp.fields.map Prod.fst = ["text", "audio_path"]) ∧
    ((transcribe_speech env form).resp.status = 500 →
      (transcribe_speech env form).resp.fields.map Prod.fst = ["error"]) := by
  rcases htr : env.transcribe (get_whisper_model env.modelState).1
      (pyJoin UPLOAD_FOLDER (env.fresh ++ "_" ++ file.filename)) with e | t <;>
    simp [transcribe_speech, hf, hname, htr]

/-- Witness for C2 at a concrete upload whose recognition fails: the
response is the 500 error, yet the file write and its ordering before
the recognition call are unchanged. -/
theorem transcribe_saves_before_recognition_witness :
    (transcribe_speech ⟨"u3", none, fun _ _ => Except.error "corrupt"⟩
        ⟨some ⟨"r.wav", [1, 2]⟩⟩).written =
      [(pyJoin UPLOAD_FOLDER ("u3" ++ "_" ++ "r.wav"), [1, 2])] ∧
    (transcribe_speech ⟨"u3", none, fun _ _ => Except.error "corrupt"⟩
        ⟨some ⟨"r.wav", [1, 2]⟩⟩).events =
      [TransEvent.save (pyJoin UPLOAD_FOLDER ("u3" ++ "_" ++ "r.wav")),
       TransEvent.transcribeCall (pyJoin UPLOAD_FOLDER ("u3" ++ "_" ++ "r.wav"))] ∧
    ((transcribe_speech ⟨"u3", none, fun _ _ => Except.error "corrupt"⟩
        ⟨some ⟨"r.wav", [1, 2]⟩⟩).resp.status = 200 ∨
      (transcribe_speech ⟨"u3", none, fun _ _ => Except.error "corrupt"⟩
        ⟨some ⟨"r.wav", [1, 2]⟩⟩).resp.status = 500) ∧
    ((transcribe_speech ⟨"u3", none, fun _ _ => Except.error "corrupt"⟩
        ⟨some ⟨"r.wav", [1, 2]⟩⟩).resp.status = 200 →
      (transcribe_speech ⟨"u3", none, fun _ _ => Except.error "corrupt"⟩
        ⟨some ⟨"r.wav", [1, 2]⟩⟩).resp.fields.map Prod.fst = ["text", "audio_path"]) ∧
    ((transcribe_speech ⟨"u3", none, fun _ _ => Except.error "corrupt"⟩
        ⟨some ⟨"r.wav", [1, 2]⟩⟩).resp.status = 500 →
      (transcribe_speech ⟨"u3", none, fun _ _ => Except.error "corrupt"⟩
        ⟨some ⟨"r.wav", [1, 2]⟩⟩).resp.fields.map Prod.fst = ["error"]) :=
  transcribe_saves_before_recognition _ _ ⟨"r.wav", [1, 2]⟩ rfl (by decide)

/-- C8: when `/synthesize` reaches the provider-request construction
(non-empty `text`, client available, `rate`/`pitch` convert), the request
carries the submitted `language`, `voice`, `rate` and `pitch` values,
with `"en-US"`, `"en-US-Standard-B"`, `1.0` and `0.0` substituted for
whichever fields were omitted (`pyFloat` returns the default for an
absent field and the parsed float for a present one). -/
theorem synthesize_request_uses_fields_and_defaults
    (pf : String → Option Rat) (env : SynthEnv) (form : SynthForm)
    (rv pv : Rat)
    (htext : form.text.getD "" ≠ "")
    (hc : env.clientOk = true)
    (hr : pyFloat pf form.rate 1 = Except.ok rv)
    (hp : pyFloat pf form.pitch 0 = Except.ok pv) :
    (synthesize_text pf env form).providerReq =
      some ⟨form.text.getD "",
        ⟨form.language.getD "en-US", form.voice.getD "en-US-Standard-B"⟩,
        ⟨rv, pv⟩⟩ := by
  have hcfg : mkAudioConfig pf form = Except.ok ⟨rv, pv⟩ := by
    rw [mkAudioConfig, hr, hp]; rfl
  rcases hsynth : env.synth ⟨form.text.getD "",
      ⟨form.language.getD "en-US", form.voice.getD "en-US-Standard-B"⟩, ⟨rv, pv⟩⟩
    with e | audio <;>
    simp [synthesize_text, htext, hc, hcfg, hsynth]

/-- Witness for C8 at a request with `language` and `rate` submitted and
`voice` and `pitch` omitted: the submitted values and the two defaults
appear in the provider request. -/
theorem synthesize_request_uses_fields_and_defaults_witness :
    (synthesize_text (fun s => if s = "2.5" then some (5 / 2 : Rat) else none)
        ⟨true, fun _ => Except.ok [], "u5"⟩
        ⟨some "hi", some "fr-FR", none, some "2.5", none⟩).providerReq =
      some ⟨(some "hi").getD "",
        ⟨(some "fr-FR").getD "en-US", (none : Option String).getD "en-US-Standard-B"⟩,
        ⟨5 / 2, 0⟩⟩ :=
  synthesize_request_uses_fields_and_defaults _ _ _ (5 / 2) 0
    (by decide) rfl (by simp [pyFloat]) rfl

/-- A list is a prefix of itself followed by anything. -/
theorem isPrefixOf_append_self (l₁ l₂ : List Char) :
    l₁.isPrefixOf (l₁ ++ l₂) = true := by
  induction l₁ with
  | nil => simp [List.isPrefixOf]
  | cons a t ih => simp [List.isPrefixOf, ih]

/-- C9: a non-empty-`text` `/synthesize` whose `rate` or `pitch` value
does not convert to a float (with the client construction succeeding)
answers 500 — not 400 — with a single `error` field prefixed
`Text-to-speech error: `, and writes no file. -/
theorem synthesize_unparseable_float_server_error
    (pf : String → Option Rat) (env : SynthEnv) (form : SynthForm)
    (htext : form.text.getD "" ≠ "")
    (hc : env.clientOk = true)
    (hbad : (∃ s, form.rate = some s ∧ pf s = none) ∨
            (∃ s, form.pitch = some s ∧ pf s = none)) :
    (synthesize_text pf env form).resp.status = 500 ∧
    (synthesize_text pf env form).written = [] ∧
    errorFieldStartsWith (synthesize_text pf env form).resp
      "Text-to-speech error: " = true := by
  have hpErr : ∀ (s : String) (d : Rat), pf s = none →
      pyFloat pf (some s) d =
        Except.error ("could not convert string to float: " ++ s) := by
    intro s d hn
    simp [pyFloat, hn]
  have hcfg : ∃ e, mkAudioConfig pf form = Except.error e := by
    rcases hbad with ⟨s, hs, hpf⟩ | ⟨s, hs, hpf⟩
    · exact ⟨_, by rw [mkAudioConfig, hs, hpErr s 1 hpf]; rfl⟩
    · rcases hrate : pyFloat pf form.rate 1 with e | rv
      · exact ⟨e, by rw [mkAudioConfig, hrate]; rfl⟩
      · exact ⟨_, by rw [mkAudioConfig, hrate, hs, hpErr s 0 hpf]; rfl⟩
  rcases hcfg with ⟨e, hcfg⟩
  refine ⟨?_, ?_, ?_⟩ <;>
    simp [synthesize_text, htext, hc, hcfg, errorFieldStartsWith,
      strStartsWith, isPrefixOf_append_self]

/-- Witness for C9 at a concrete request whose `rate` is `"abc"`. -/
theorem synthesize_unparseable_float_server_error_witness :
    (synthesize_text (fun _ => none) ⟨true, fun _ => Except.ok [], "u9"⟩
        ⟨some "hi", none, none, some "abc", none⟩).resp.status = 500 ∧
    (synthesize_text (fun _ => none) ⟨true, fun _ => Except.ok [], "u9"⟩
        ⟨some "hi", none, none, some "abc", none⟩).written = [] ∧
    errorFieldStartsWith
      (synthesize_text (fun _ => none) ⟨true, fun _ => Except.ok [], "u9"⟩
        ⟨some "hi", none, none, some "abc", none⟩).resp
      "Text-to-speech error: " = true :=
  synthesize_unparseable_float_server_error _ _ _ (by decide) rfl
    (Or.inl ⟨"abc", rfl, rfl⟩)

/-- Counterexample to C3: `get_whisper_model` has no mutual-exclusion
guard, so the interleaving in which both first callers pass the null
check before either stores reaches a state where `whisper.load_model`
has run twice — the model is not loaded at most once. -/
theorem whisper_double_load_reachable :
    CReach doubleLoadState ∧ 1 < doubleLoadState.loads := by
  have h01 : CStep initCState ⟨none, TPC.loading, TPC.start, 0⟩ :=
    CStep.check1_none initCState rfl rfl
  have h12 : CStep ⟨none, TPC.loading, TPC.start, 0⟩
      ⟨none, TPC.loading, TPC.loading, 0⟩ :=
    CStep.check2_none _ rfl rfl
  have h23 : CStep ⟨none, TPC.loading, TPC.loading, 0⟩
      ⟨some (load_model "tiny.en"), TPC.done (load_model "tiny.en"),
        TPC.loading, 1⟩ :=
    CStep.load1 _ rfl
  have h34 : CStep ⟨some (load_model "tiny.en"), TPC.done (load_model "tiny.en"),
      TPC.loading, 1⟩ doubleLoadState :=
    CStep.load2 _ rfl
  exact ⟨(((Relation.ReflTransGen.single h01).tail h12).tail h23).tail h34,
    by decide⟩

/-- The invariant holds in the initial state. -/
theorem cInv_init : CInv initCState := by
  refine ⟨by decide, Or.inl rfl, ?_, ?_⟩ <;>
    exact fun m hm => TPC.noConfusion hm

/-- The invariant is preserved by every interleaving step. -/
theorem cInv_step {s s' : CState} (hs : CStep s s') (hinv : CInv s) :
    CInv s' := by
  obtain ⟨hb, hm, h1, h2⟩ := hinv
  cases hs with
  | check1_none ht1 hm0 =>
      refine ⟨?_, hm, fun m hm' => TPC.noConfusion hm', h2⟩
      show s.loads + TPC.loading.cost + s.t2.cost ≤ 2
      rw [ht1] at hb
      simp only [TPC.cost] at hb ⊢
      omega
  | check1_some m ht1 hms =>
      have hmt : m = load_model "tiny.en" := by
        rcases hm with hnone | htiny
        · rw [hnone] at hms; exact Option.noConfusion hms
        · rw [htiny] at hms; exact (Option.some.inj hms).symm
      refine ⟨?_, hm, ?_, h2⟩
      · show s.loads + (TPC.done m).cost + s.t2.cost ≤ 2
        rw [ht1] at hb
        simp only [TPC.cost] at hb ⊢
        omega
      · intro m' hm'
        have hmm : m = m' := TPC.done.inj hm'
        subst hmm
        rcases hm with hnone | htiny
        · rw [hnone] at hms; exact Option.noConfusion hms
        · exact ⟨hmt, htiny⟩
  | load1 ht1 =>
      refine ⟨?_, Or.inr rfl, ?_, ?_⟩
      · show s.loads + 1 + (TPC.done (load_model "tiny.en")).cost + s.t2.cost ≤ 2
        rw [ht1] at hb
        simp only [TPC.cost] at hb ⊢
        omega
      · intro m' hm'
        exact ⟨(TPC.done.inj hm').symm, rfl⟩
      · intro m' hm'
        exact ⟨(h2 m' hm').1, rfl⟩
  | check2_none ht2 hm0 =>
      refine ⟨?_, hm, h1, fun m hm' => TPC.noConfusion hm'⟩
      show s.loads + s.t1.cost + TPC.loading.cost ≤ 2
      rw [ht2] at hb
      simp only [TPC.cost] at hb ⊢
      omega
  | check2_some m ht2 hms =>
      have hmt : m = load_model "tiny.en" := by
        rcases hm with hnone | htiny
        · rw [hnone] at hms; exact Option.noConfusion hms
        · rw [htiny] at hms; exact (Option.some.inj hms).symm
      refine ⟨?_, hm, h1, ?_⟩
      · show s.loads + s.t1.cost + (TPC.done m).cost ≤ 2
        rw [ht2] at hb
        simp only [TPC.cost] at hb ⊢
        omega
      · intro m' hm'
        have hmm : m = m' := TPC.done.inj hm'
        subst hmm
        rcases hm with hnone | htiny
        · rw [hnone] at hms; exact Option.noConfusion hms
        · exact ⟨hmt, htiny⟩
  | load2 ht2 =>
      refine ⟨?_, Or.inr rfl, ?_, ?_⟩
      · show s.loads + 1 + s.t1.cost + (TPC.done (load_model "tiny.en")).cost ≤ 2
        rw [ht2] at hb
        simp only [TPC.cost] at hb ⊢
        omega
      · intro m' hm'
        exact ⟨(h1 m' hm').1, rfl⟩
      · intro m' hm'
        exact ⟨(TPC.done.inj hm').symm, rfl⟩

/-- Every reachable state of the interleaving satisfies the invariant. -/
theorem cReach_inv {s : CState} (h : CReach s) : CInv s := by
  have h' : Relation.ReflTransGen CStep initCState s := h
  clear h
  induction h' with
  | refl => exact cInv_init
  | tail _ hstep ih => exact cInv_step hstep ih

/-- C3 amended: without a lock, any reachable state of two concurrent
first calls to `get_whisper_model` has performed at most one load per
thread (so at most two, and two is attainable), every returned call
holds the `tiny.en` model, and once both calls have returned the global
handle is set to that model and is only ever read thereafter. -/
theorem whisper_load_race_bounded (s : CState) (h : CReach s) :
    s.loads ≤ 2 ∧ doneResultOk s.t1 = true ∧ doneResultOk s.t2 = true ∧
    (s.t1.isDone = true → s.t2.isDone = true →
      s.model = some (load_model "tiny.en")) := by
  obtain ⟨hb, hm, h1, h2⟩ := cReach_inv h
  refine ⟨by omega, ?_, ?_, ?_⟩
  · cases ht : s.t1 with
    | done m => simp [doneResultOk, (h1 m ht).1]
    | start => simp [doneResultOk]
    | loading => simp [doneResultOk]
  · cases ht : s.t2 with
    | done m => simp [doneResultOk, (h2 m ht).1]
    | start => simp [doneResultOk]
    | loading => simp [doneResultOk]
  · intro hd1 _
    cases ht : s.t1 with
    | done m => exact (h1 m ht).2
    | start => rw [ht] at hd1; exact absurd hd1 (by simp [TPC.isDone])
    | loading => rw [ht] at hd1; exact absurd hd1 (by simp [TPC.isDone])

/-- Witness for the amended C3 at the (trivially reachable) initial
state. -/
theorem whisper_load_race_bounded_witness :
    initCState.loads ≤ 2 ∧ doneResultOk initCState.t1 = true ∧
    doneResultOk initCState.t2 = true ∧
    (initCState.t1.isDone = true → initCState.t2.isDone = true →
      initCState.model = some (load_model "tiny.en")) :=
  whisper_load_race_bounded initCState Relation.ReflTransGen.refl

/-- Counterexample to C7: when recognition fails inside
`/transcribe-audio`, the handler reports the error through the rendered
`audio_transcribe.html` page served with status 200 — an error response
that is neither structured JSON nor status 400/500. -/
theorem transcribe_audio_error_response_not_json :
    transcribe_audio
        ⟨true, some (load_model "tiny.en"), fun _ _ => Except.error "boom"⟩ =
      AppResp.html "audio_transcribe.html" ⟨false, some "boom", none, none, none⟩ ∧
    (transcribe_audio
        ⟨true, some (load_model "tiny.en"), fun _ _ => Except.error "boom"⟩).reportsError
      = true ∧
    (transcribe_audio
        ⟨true, some (load_model "tiny.en"), fun _ _ => Except.error "boom"⟩).status
      = 200 :=
  ⟨rfl, rfl, rfl⟩

/-- C7 amended: the status of every error response matches its failure
class.  On `/synthesize`, a validation failure (empty `text`) answers
exactly 400 with the single `error` field, and with non-empty `text` the
status is never 400: a missing credential file or a provider failure
answers exactly 500 with the single `error` field, and otherwise the
call is a 200 success.  On `/transcribe`, a validation failure answers
exactly 400, and on a validated request the status is never 400: a
recognition failure answers exactly 500 with its message as the single
`error` field, a successful recognition 200.  Both handlers are total on
all adapter outcomes, so no adapter failure escapes them.  The
`/transcribe-audio` page handler, by contrast, always answers status
200, and reports both its missing-file error and any recognition error
inside the rendered HTML page, not as JSON. -/
theorem app_error_status_taxonomy
    (pf : String → Option Rat) (envS : SynthEnv) (formS : SynthForm)
    (envT : TransEnv) (formT : TransForm) (envA : TAEnv) :
    (formS.text.getD "" = "" →
      synthesize_text pf envS formS =
        ⟨⟨[("error", "No text provided")], 400⟩, [], none⟩) ∧
    (formS.text.getD "" ≠ "" →
      (synthesize_text pf envS formS).resp.status ≠ 400 ∧
      ((synthesize_text pf envS formS).resp.status = 200 ∨
        ((synthesize_text pf envS formS).resp.status = 500 ∧
          ∃ e, (synthesize_text pf envS formS).resp.fields = [("error", e)]))) ∧
    (formS.text.getD "" ≠ "" → envS.clientOk = false →
      (synthesize_text pf envS formS).resp =
        ⟨[("error", "Google Cloud service account file not found. Please check the file path.")],
          500⟩) ∧
    (formS.text.getD "" ≠ "" → envS.clientOk = true →
      ∀ cfg, mkAudioConfig pf formS = Except.ok cfg →
      ∀ e, envS.synth ⟨formS.text.getD "",
          ⟨formS.language.getD "en-US", formS.voice.getD "en-US-Standard-B"⟩, cfg⟩ =
        Except.error e →
      (synthesize_text pf envS formS).resp =
        ⟨[("error", "Text-to-speech error: " ++ e)], 500⟩) ∧
    (transcribeInvalid formT = true →
      transcribe_speech envT formT =
        ⟨⟨[("error", rejectMsg formT)], 400⟩, [], envT.modelState, []⟩) ∧
    (∀ f, formT.audio = some f → f.filename ≠ "" →
      (transcribe_speech envT formT).resp.status ≠ 400 ∧
      (∀ e, envT.transcribe (get_whisper_model envT.modelState).1
          (pyJoin UPLOAD_FOLDER (envT.fresh ++ "_" ++ f.filename)) = Except.error e →
        (transcribe_speech envT formT).resp = ⟨[("error", e)], 500⟩) ∧
      (∀ t, envT.transcribe (get_whisper_model envT.modelState).1
          (pyJoin UPLOAD_FOLDER (envT.fresh ++ "_" ++ f.filename)) = Except.ok t →
        (transcribe_speech envT formT).resp.status = 200)) ∧
    (transcribe_audio envA).status = 200 ∧
    (envA.fileExists = false →
      transcribe_audio envA = AppResp.html "audio_transcribe.html"
        ⟨false,
          some "Audio file 'recording.m4a' not found. Please place it next to app.py.",
          none, none, none⟩) ∧
    (envA.fileExists = true →
      ∀ e, envA.transcribe (get_whisper_model envA.modelState).1 "recording.m4a" =
        Except.error e →
      transcribe_audio envA = AppResp.html "audio_transcribe.html"
        ⟨false, some e, none, none, none⟩) := by
  refine ⟨?_, ?_, ?_, ?_, ?_, ?_, ?_, ?_, ?_⟩
  · intro h1
    simp [synthesize_text, h1]
  · intro h1
    by_cases hc : envS.clientOk = false
    · exact ⟨by simp [synthesize_text, h1, hc],
        Or.inr ⟨by simp [synthesize_text, h1, hc],
          "Google Cloud service account file not found. Please check the file path.",
          by simp [synthesize_text, h1, hc]⟩⟩
    · rcases hcfg : mkAudioConfig pf formS with e | cfg
      · exact ⟨by simp [synthesize_text, h1, hc, hcfg],
          Or.inr ⟨by simp [synthesize_text, h1, hc, hcfg],
            "Text-to-speech error: " ++ e,
            by simp [synthesize_text, h1, hc, hcfg]⟩⟩
      · rcases hsy : envS.synth ⟨formS.text.getD "",
            ⟨formS.language.getD "en-US", formS.voice.getD "en-US-Standard-B"⟩, cfg⟩
          with e | audio
        · exact ⟨by simp [synthesize_text, h1, hc, hcfg, hsy],
            Or.inr ⟨by simp [synthesize_text, h1, hc, hcfg, hsy],
              "Text-to-speech error: " ++ e,
              by simp [synthesize_text, h1, hc, hcfg, hsy]⟩⟩
        · exact ⟨by simp [synthesize_text, h1, hc, hcfg, hsy],
            Or.inl (by simp [synthesize_text, h1, hc, hcfg, hsy])⟩
  · intro h1 hc
    simp [synthesize_text, h1, hc]
  · intro h1 hc cfg hcfg e hsy
    simp [synthesize_text, h1, hc, hcfg, hsy]
  · intro hI
    cases hf : formT.audio with
    | none => simp [transcribe_speech, rejectMsg, hf]
    | some f =>
        have hname : f.filename = "" := by
          rw [transcribeInvalid, hf] at hI
          exact eq_of_beq hI
        simp [transcribe_speech, rejectMsg, hf, hname]
  · intro f hf hname
    refine ⟨?_, ?_, ?_⟩
    · rcases htr : envT.transcribe (get_whisper_model envT.modelState).1
          (pyJoin UPLOAD_FOLDER (envT.fresh ++ "_" ++ f.filename)) with e | t <;>
        simp [transcribe_speech, hf, hname, htr]
    · intro e htr
      simp [transcribe_speech, hf, hname, htr]
    · intro t htr
      simp [transcribe_speech, hf, hname, htr]
  · by_cases hfe : envA.fileExists = false
    · simp [transcribe_audio, hfe, AppResp.status]
    · rcases htr : envA.transcribe (get_whisper_model envA.modelState).1
          "recording.m4a" with e | t <;>
        simp [transcribe_audio, hfe, htr, AppResp.status]
  · intro hfe
    simp [transcribe_audio, hfe]
  · intro hfe e htr
    simp [transcribe_audio, hfe, htr]

end WhisperTest
